import Mathlib

/-!
Verification of the ULAS attendance-tracking core (`core.py`, with the
end-session handler of `app.py` and the store contract of `github_store.py`)
against its natural-language specification.

The Python code is shallowly embedded:
* Python strings become Lean `String`s, with `pyStrip`, `pyLower`, `pyUpper`,
  `pyTitle`, `pyIsDigit` modelling `str.strip` / `.lower` / `.upper` /
  `.title` / `.isdigit` on the ASCII range the application uses.
* Wall-clock timestamps (`futo_ts`, Python floats of seconds) become explicit
  rational parameters `now : ℚ` threaded through the functions that call
  `futo_ts()`.
* `random.randint(0, 9999)` becomes an explicit parameter `rand : Nat`
  carrying the drawn value; `randint` guarantees `rand ≤ 9999`.
* The remote document store becomes explicit state (`Option` documents) with
  a boolean parameter for the success of each write, mirroring
  `github_store.write_json` returning a sha on success and `None` on failure.
* Functions that mutate a session dict in place instead return the new
  session alongside the `(ok, message)` pair the Python function returns.
-/

namespace ULAS

/-- Model of Python `str.strip()`: drop whitespace from both ends. -/
def pyStrip (s : String) : String :=
  ⟨((s.data.dropWhile Char.isWhitespace).reverse.dropWhile Char.isWhitespace).reverse⟩

/-- Model of Python `str.lower()` on the ASCII range. -/
def pyLower (s : String) : String := ⟨s.data.map Char.toLower⟩

/-- Model of Python `str.upper()` on the ASCII range. -/
def pyUpper (s : String) : String := ⟨s.data.map Char.toUpper⟩

/-- One step of Python `str.title()`: a letter is upper-cased when the
previous character was not a letter, lower-cased otherwise. -/
def pyTitleAux : Bool → List Char → List Char
  | _, [] => []
  | prevAlpha, c :: cs =>
    (if c.isAlpha then (if prevAlpha then c.toLower else c.toUpper) else c)
      :: pyTitleAux c.isAlpha cs

/-- Model of Python `str.title()` on the ASCII range. -/
def pyTitle (s : String) : String := ⟨pyTitleAux false s.data⟩

/-- Model of Python `str.isdigit()` on the ASCII range: non-empty and all
characters are digits. -/
def pyIsDigit (s : String) : Bool :=
  !s.data.isEmpty && s.data.all Char.isDigit

/-- Decimal digit list of a natural number, recursing on a fuel bound so the
kernel can evaluate it; mirrors the digits of Python `str(n)`. -/
def natToDigitsAux : Nat → Nat → List Char
  | 0, _ => []
  | fuel + 1, n =>
    if n < 10 then [Nat.digitChar n]
    else natToDigitsAux fuel (n / 10) ++ [Nat.digitChar (n % 10)]

/-- Decimal digit list of a natural number (`n + 1` is always enough fuel
since `n < 10 ^ (n + 1)`). -/
def natToDigits (n : Nat) : List Char := natToDigitsAux (n + 1) n

/-- `core.generate_token`: `f"{random.randint(0, 9999):04d}"`, with the drawn
value passed in as `rand`; `%04d` left-pads the decimal digits with zeros to
width 4. -/
def generate_token (rand : Nat) : String :=
  ⟨List.replicate (4 - (natToDigits rand).length) '0' ++ natToDigits rand⟩

/-- One attendance entry (`core.add_entry` constructs these dicts). -/
structure Entry where
  sn : Nat
  surname : String
  other_names : String
  matric : String
  time : String
deriving DecidableEq, Repr

/-- A live attendance session document (`core.start_session` constructs
these dicts). -/
structure Session where
  school : String
  department : String
  level : String
  course_code : String
  rep_username : String
  started_at : String
  token : String
  token_generated_at : ℚ
  entries : List Entry
  next_sn : Nat
deriving DecidableEq, Repr

/-- `core.start_session`: build a fresh session.  `nowIso` stands for
`now.isoformat()`, `nowTs` for `futo_ts()`, `rand` for the `randint` draw
inside `generate_token`.  (The surrounding `save_session` write is the
store's concern and does not alter the returned session.) -/
def start_session (nowIso : String) (nowTs : ℚ) (rand : Nat)
    (school department level course_code rep_username : String) : Session :=
  { school := school
    department := department
    level := level
    course_code := pyStrip (pyUpper course_code)
    rep_username := rep_username
    started_at := nowIso
    token := generate_token rand
    token_generated_at := nowTs
    entries := []
    next_sn := 1 }

/-- `core.refresh_token`: if the token's age reached `lifetime`, install a
fresh token (drawn value `rand`) stamped `now` and report `true`; otherwise
leave the session alone and report `false`. -/
def refresh_token (now : ℚ) (rand : Nat) (session : Session) (lifetime : ℤ) :
    Session × Bool :=
  if (lifetime : ℚ) ≤ now - session.token_generated_at then
    ({ session with token := generate_token rand, token_generated_at := now }, true)
  else
    (session, false)

/-- `core.validate_token`: reject when the token's age reached `lifetime`,
otherwise accept exactly the stored token (submitted code stripped). -/
def validate_token (now : ℚ) (session : Session) (code : String) (lifetime : ℤ) :
    Bool :=
  if (lifetime : ℚ) ≤ now - session.token_generated_at then false
  else decide (session.token = pyStrip code)

/-- The skip test `if exclude_sn and e["sn"] == exclude_sn` inside
`core._name_dup` / `core._matric_dup`: Python's `and` first checks
`exclude_sn` for truthiness, so `None` and `0` never exclude anything. -/
def excludedSn (exclude_sn : Option Nat) (sn : Nat) : Bool :=
  match exclude_sn with
  | some k => decide (k ≠ 0) && decide (sn = k)
  | none => false

/-- `core._name_dup`: a loop over the entries that skips the excluded
sequence number and reports a match of the lower-cased stored names against
the stripped, lower-cased candidate names. -/
def nameDup (entries : List Entry) (surname other_names : String)
    (exclude_sn : Option Nat := none) : Bool :=
  entries.any fun e =>
    !excludedSn exclude_sn e.sn &&
      (decide (pyLower e.surname = pyLower (pyStrip surname)) &&
       decide (pyLower e.other_names = pyLower (pyStrip other_names)))

/-- `core._matric_dup`: same loop shape, comparing the stored matric against
the stripped candidate matric. -/
def matricDup (entries : List Entry) (matric : String)
    (exclude_sn : Option Nat := none) : Bool :=
  entries.any fun e =>
    !excludedSn exclude_sn e.sn && decide (e.matric = pyStrip matric)

/-- `core.validate_matric`: strip, then require digits only, then require
exactly 11 of them. -/
def validate_matric (matric : String) : Bool × String :=
  let m := pyStrip matric
  if !pyIsDigit m then
    (false, "Matric number must contain digits only — no letters or spaces.")
  else if m.data.length ≠ 11 then
    (false, "Matric number must be exactly 11 digits (you entered "
            ++ toString m.data.length ++ ").")
  else
    (true, "")

/-- `core.add_entry`: reject a duplicate name, then a duplicate matric;
otherwise append the normalized entry stamped `now_str` (`futo_now_str()`)
with `sn = next_sn`, and increment `next_sn`.  Returns the session after the
call together with the `(ok, message)` pair. -/
def add_entry (now_str : String) (session : Session)
    (surname other_names matric : String) : Session × Bool × String :=
  if nameDup session.entries surname other_names then
    (session, false, "A student with this name is already in the attendance.")
  else if matricDup session.entries matric then
    (session, false, "This matric number is already in the attendance.")
  else
    ({ session with
        entries := session.entries ++
          [{ sn := session.next_sn
             surname := pyUpper (pyStrip surname)
             other_names := pyTitle (pyStrip other_names)
             matric := pyStrip matric
             time := now_str }]
        next_sn := session.next_sn + 1 },
     true, "Entry recorded.")

/-- The update loop of `core.edit_entry`: rewrite the fields of the first
entry whose `sn` matches and stop; `none` when no entry matches. -/
def updateFirst (entries : List Entry) (sn : Nat)
    (surname other_names matric : String) : Option (List Entry) :=
  match entries with
  | [] => none
  | e :: rest =>
    if e.sn = sn then
      some ({ e with
                surname := pyUpper (pyStrip surname)
                other_names := pyTitle (pyStrip other_names)
                matric := pyStrip matric } :: rest)
    else
      (updateFirst rest sn surname other_names matric).map (e :: ·)

/-- `core.edit_entry`: duplicate checks excluding `sn`, then in-place field
update of the first entry with that `sn`, or a not-found failure. -/
def edit_entry (session : Session) (sn : Nat)
    (surname other_names matric : String) : Session × Bool × String :=
  if nameDup session.entries surname other_names (some sn) then
    (session, false, "Another entry already has this name.")
  else if matricDup session.entries matric (some sn) then
    (session, false, "Another entry already has this matric number.")
  else
    match updateFirst session.entries sn surname other_names matric with
    | some l => ({ session with entries := l }, true, "Entry updated.")
    | none => (session, false, "Entry not found.")

/-- The deletion loop of `core.delete_entry`: pop the first entry whose `sn`
matches and stop; `none` when no entry matches. -/
def deleteFirst (entries : List Entry) (sn : Nat) : Option (List Entry) :=
  match entries with
  | [] => none
  | e :: rest =>
    if e.sn = sn then some rest
    else (deleteFirst rest sn).map (e :: ·)

/-- `core.delete_entry`: remove the first entry with the given `sn`, or a
not-found failure; `next_sn` is left untouched. -/
def delete_entry (session : Session) (sn : Nat) : Session × Bool × String :=
  match deleteFirst session.entries sn with
  | some l => ({ session with entries := l }, true, "Entry removed.")
  | none => (session, false, "Entry not found.")

/-- A record of `data/users.json` (`core.create_user` constructs these
dicts).  The password hash is kept abstract: the spec treats hashing as an
opaque capability, and no claim inspects hash values, so `hash_password` is
modelled as an injective tagging of the password. -/
structure UserRec where
  username : String
  password_hash : String
  role : String
  school : String
  department : String
  level : Option String
  created_by : String
  created_at : String
deriving DecidableEq, Repr

/-- Abstract stand-in for `core.hash_password` (SHA-256 is out of the spec's
scope; only equality of hashes ever matters). -/
def hash_password (pw : String) : String := "sha256:" ++ pw

/-- The user directory `data/users.json`: a username-keyed mapping, modelled
as the insertion-ordered association list a Python dict is. -/
abbrev UserDir : Type := List (String × UserRec)

/-- Python `username in users`. -/
def containsUser (users : UserDir) (username : String) : Bool :=
  users.any fun p => decide (p.1 = username)

/-- Python `users.get(username)` on the directory. -/
def lookupUser (users : UserDir) (username : String) : Option UserRec :=
  (users.find? fun p => decide (p.1 = username)).map Prod.snd

/-- `core.create_user`: reject a username already present anywhere in the
directory, else insert the new record and persist.  `users` is the stored
directory, `now_str` stands for `futo_now_str()`, and `writeOk` is the
outcome of the `save_users` store write (the stored directory changes only
when that write succeeds). -/
def create_user (users : UserDir) (username password role school department : String)
    (level : Option String) (created_by : String) (now_str : String)
    (writeOk : Bool) : UserDir × Bool × String :=
  if containsUser users username then
    (users, false, "Username '" ++ username ++ "' already exists across FUTO.")
  else
    let newRec : UserRec :=
      { username := username
        password_hash := hash_password password
        role := role
        school := school
        department := department
        level := level
        created_by := created_by
        created_at := now_str }
    if writeOk then
      (users ++ [(username, newRec)], true, "Created.")
    else
      (users, false, "GitHub write failed.")

/-- A device-registration map document
`devices/{school}__{department}__{level}__{COURSE}.json`: device id →
matric, modelled as the insertion-ordered association list a Python dict is. -/
abbrev DeviceMap : Type := List (String × String)

/-- Python `dm.get(device_id)`. -/
def lookupDevice (dm : DeviceMap) (device_id : String) : Option String :=
  (dm.find? fun p => decide (p.1 = device_id)).map Prod.snd

/-- Python `dm[device_id] = v`: overwrite in place if the key exists,
otherwise append. -/
def setDevice (dm : DeviceMap) (device_id v : String) : DeviceMap :=
  match dm with
  | [] => [(device_id, v)]
  | p :: rest =>
    if p.1 = device_id then (device_id, v) :: rest
    else p :: setDevice rest device_id v

/-- Outcome of one `check_and_register_device` call: the `(ok, message)`
pair returned to the caller, the device-map document as it stands in the
store afterwards, and whether the call read / attempted to write the store. -/
structure DevOutcome where
  ok : Bool
  msg : String
  store : Option DeviceMap
  readStore : Bool
  wroteStore : Bool
deriving DecidableEq, Repr

/-- `core.check_and_register_device`: an empty (falsy) device id short-circuits
to success before any store access; otherwise the map is read fresh (`none`,
an absent document, becomes `{}`), a binding to a different matric rejects
without writing, and any other case rebinds and writes immediately.  `store`
is the device-map document before the call and `writeOk` the outcome of the
`write_json` call — whose return value the Python code ignores, succeeding
either way. -/
def check_and_register_device (store : Option DeviceMap) (writeOk : Bool)
    (device_id matric : String) : DevOutcome :=
  if device_id = "" then
    { ok := true, msg := "", store := store, readStore := false, wroteStore := false }
  else
    let dm := store.getD []
    let existing := lookupDevice dm device_id
    if (match existing with
        | some v => decide (v ≠ "") && decide (v ≠ pyStrip matric)
        | none => false) then
      { ok := false
        msg := "This device has already been used to sign attendance for this class."
        store := store, readStore := true, wroteStore := false }
    else
      let dm' := setDevice dm device_id (pyStrip matric)
      { ok := true, msg := ""
        store := if writeOk then some dm' else store
        readStore := true, wroteStore := true }

/-- Outcome of the "End & Push to LAVA" handler (`app.py`): the session
document as it stands in the store afterwards, whether `delete_session` was
invoked, and whether the export push succeeded. -/
structure EndOutcome where
  store : Option Session
  deleteInvoked : Bool
  pushOk : Bool
deriving DecidableEq, Repr

/-- The "End & Push to LAVA" handler of `app.py`: re-load the freshest
session document (`store`, `none` when absent); when present, push the CSV
export (`pushResult` is what `push_attendance_to_lava` reports) and delete
the live session document only when the push succeeded; on failure the
document is left untouched and an error is shown instead. -/
def end_session_handler (store : Option Session) (pushResult : Bool) : EndOutcome :=
  match store with
  | none => { store := none, deleteInvoked := false, pushOk := false }
  | some s =>
    if pushResult then
      { store := none, deleteInvoked := true, pushOk := true }
    else
      { store := some s, deleteInvoked := false, pushOk := false }

/-! ### Helper lemmas about token formatting -/

theorem digitChar_isDigit (m : Nat) (h : m < 10) : (Nat.digitChar m).isDigit = true := by
  interval_cases m <;> decide

theorem natToDigitsAux_digits (fuel : Nat) :
    ∀ n c, c ∈ natToDigitsAux fuel n → c.isDigit = true := by
  induction fuel with
  | zero => intro n c hc; simp [natToDigitsAux] at hc
  | succ f ih =>
    intro n c hc
    simp only [natToDigitsAux] at hc
    by_cases h : n < 10
    · rw [if_pos h] at hc
      simp at hc
      subst hc
      exact digitChar_isDigit _ h
    · rw [if_neg h] at hc
      rcases List.mem_append.mp hc with h1 | h2
      · exact ih _ _ h1
      · simp at h2
        subst h2
        exact digitChar_isDigit _ (Nat.mod_lt _ (by omega))

theorem natToDigitsAux_length (fuel : Nat) :
    ∀ n k, n < 10 ^ k → k ≠ 0 → (natToDigitsAux fuel n).length ≤ k := by
  induction fuel with
  | zero => intro n k _ _; simp [natToDigitsAux]
  | succ f ih =>
    intro n k hn hk
    simp only [natToDigitsAux]
    by_cases h : n < 10
    · rw [if_pos h]
      simpa using Nat.one_le_iff_ne_zero.mpr hk
    · rw [if_neg h, List.length_append]
      have hk2 : 2 ≤ k := by
        rcases Nat.lt_or_ge k 2 with hlt | hge
        · interval_cases k
          · omega
          · simp [pow_one] at hn; omega
        · exact hge
      have hpow : 10 ^ k = 10 ^ (k - 1) * 10 := by
        conv_lhs => rw [show k = (k - 1) + 1 by omega]
        rw [pow_succ]
      have hdiv : n / 10 < 10 ^ (k - 1) :=
        (Nat.div_lt_iff_lt_mul (by omega)).mpr (by omega)
      have := ih (n / 10) (k - 1) hdiv (by omega)
      simp only [List.length_singleton]
      omega

theorem generate_token_length (rand : Nat) (h : rand ≤ 9999) :
    (generate_token rand).data.length = 4 := by
  have hlen : (natToDigits rand).length ≤ 4 :=
    natToDigitsAux_length (rand + 1) rand 4 (by omega) (by omega)
  show (List.replicate (4 - (natToDigits rand).length) '0' ++ natToDigits rand).length = 4
  rw [List.length_append, List.length_replicate]
  omega

theorem generate_token_digits (rand : Nat) :
    ∀ c ∈ (generate_token rand).data, c.isDigit = true := by
  intro c hc
  have hc' : c ∈ List.replicate (4 - (natToDigits rand).length) '0' ++ natToDigits rand := hc
  rcases List.mem_append.mp hc' with h1 | h2
  · rw [List.eq_of_mem_replicate h1]; decide
  · exact natToDigitsAux_digits _ _ _ h2

/-! ### Concrete sample data used by the witnesses -/

/-- A sample live session whose token was generated at timestamp 0. -/
def sampleSession : Session :=
  { school := "SICT"
    department := "Computer Science"
    level := "300"
    course_code := "CSC301"
    rep_username := "rep1"
    started_at := "2026-01-01T08:00:00+01:00"
    token := "1234"
    token_generated_at := 0
    entries := []
    next_sn := 1 }

/-- A sample normalized entry as `add_entry` would store it. -/
def sampleEntry : Entry :=
  { sn := 1
    surname := "OKAFOR"
    other_names := "John Paul"
    matric := "20201234567"
    time := "2026-01-01 08:00:00" }

/-- `sampleSession` after one successful `add_entry`. -/
def sessionWithEntry : Session :=
  { sampleSession with entries := [sampleEntry], next_sn := 2 }

/-! ### C1 — validate_token -/

/-- C1: `validate_token` returns `false` whenever the elapsed time since
`token_generated_at` is at least `lifetime`, regardless of the submitted
code; when the elapsed time is strictly below `lifetime` it returns `true`
exactly when the stripped code equals the stored token. -/
theorem validateToken_time_and_value (now : ℚ) (s : Session) (code : String)
    (lifetime : ℤ) :
    ((lifetime : ℚ) ≤ now - s.token_generated_at →
       validate_token now s code lifetime = false)
    ∧ (now - s.token_generated_at < (lifetime : ℚ) →
       (validate_token now s code lifetime = true ↔ pyStrip code = s.token)) := by
  constructor
  · intro h
    simp [validate_token, h]
  · intro h
    simp [validate_token, not_le.mpr h, eq_comm]

/-- C1 witness: with a token stamped at time 0 and lifetime 7, the code
`" 1234 "` is rejected at time 10 and accepted at time 3. -/
theorem validateToken_time_and_value_witness :
    validate_token 10 sampleSession " 1234 " 7 = false
    ∧ validate_token 3 sampleSession " 1234 " 7 = true := by
  constructor
  · exact (validateToken_time_and_value 10 sampleSession " 1234 " 7).1
      (by norm_num [sampleSession])
  · exact ((validateToken_time_and_value 3 sampleSession " 1234 " 7).2
      (by norm_num [sampleSession])).mpr (by decide)

/-! ### C2 — refresh_token idempotence -/

/-- C2 counterexample: with `lifetime = 0` (the claim quantifies over
*every* lifetime) the second of two immediate calls refreshes again and
reports `wasRefreshed = true`, since the refreshed token's age, 0, is again
at least the lifetime. -/
theorem refreshToken_idem_counterexample :
    (refresh_token 5 17 (refresh_token 5 99 sampleSession 0).1 0).2 = true := by
  norm_num [refresh_token, sampleSession]

/-- C2 (amended to positive lifetimes): for every session and every
*positive* lifetime, an immediate second `refresh_token` call reports
`wasRefreshed = false` and returns the session unchanged; and a call
refreshes exactly when the token's age is at least the lifetime. -/
theorem refreshToken_idem (now : ℚ) (r1 r2 : Nat) (s : Session) (lifetime : ℤ)
    (hpos : 0 < lifetime) :
    ((refresh_token now r2 (refresh_token now r1 s lifetime).1 lifetime).2 = false
     ∧ (refresh_token now r2 (refresh_token now r1 s lifetime).1 lifetime).1
         = (refresh_token now r1 s lifetime).1)
    ∧ ((refresh_token now r1 s lifetime).2 = true
        ↔ (lifetime : ℚ) ≤ now - s.token_generated_at) := by
  have hq : (0 : ℚ) < (lifetime : ℚ) := by exact_mod_cast hpos
  by_cases h : (lifetime : ℚ) ≤ now - s.token_generated_at
  · have hfst : refresh_token now r1 s lifetime
        = ({ s with token := generate_token r1, token_generated_at := now }, true) := by
      simp [refresh_token, h]
    have hc1 : ¬ (lifetime : ℚ) ≤ now - now := by
      rw [sub_self]; exact not_le.mpr hq
    have hc2 : ¬ (lifetime : ℚ) ≤ 0 := not_le.mpr hq
    have hc3 : ¬ lifetime ≤ 0 := not_le.mpr hpos
    refine ⟨⟨?_, ?_⟩, ?_⟩
    · rw [hfst]
      simp [refresh_token, hc1, hc2, hc3]
    · rw [hfst]
      simp [refresh_token, hc1, hc2, hc3]
    · rw [hfst]
      simp [h]
  · have hfst : refresh_token now r1 s lifetime = (s, false) := by
      simp [refresh_token, h]
    refine ⟨⟨?_, ?_⟩, ?_⟩ <;> rw [hfst] <;> simp [refresh_token, h]

/-- C2 witness for the amended claim: with lifetime 7 the second immediate
call at time 10 does not refresh. -/
theorem refreshToken_idem_witness :
    (refresh_token 10 5 (refresh_token 10 3 sampleSession 7).1 7).2 = false :=
  ((refreshToken_idem 10 3 5 sampleSession 7 (by norm_num)).1).1

/-! ### C3 — add_entry duplicate rejection -/

/-- C3: `add_entry` fails with one of the two duplicate messages and leaves
the session (entries and `next_sn`) unchanged whenever some existing entry
matches the new name case-insensitively (new components stripped) or the new
stripped matric. -/
theorem addEntry_dup_rejected (t : String) (s : Session) (su onames ma : String)
    (hdup : ∃ e ∈ s.entries,
        (pyLower e.surname = pyLower (pyStrip su)
          ∧ pyLower e.other_names = pyLower (pyStrip onames))
        ∨ e.matric = pyStrip ma) :
    (add_entry t s su onames ma).2.1 = false
    ∧ (add_entry t s su onames ma).1 = s
    ∧ ((add_entry t s su onames ma).2.2
          = "A student with this name is already in the attendance."
       ∨ (add_entry t s su onames ma).2.2
          = "This matric number is already in the attendance.") := by
  have hd : nameDup s.entries su onames = true ∨ matricDup s.entries ma = true := by
    obtain ⟨e, he, hcase⟩ := hdup
    rcases hcase with ⟨h1, h2⟩ | h3
    · left
      simp [nameDup, excludedSn, List.any_eq_true]
      exact ⟨e, he, h1, h2⟩
    · right
      simp [matricDup, excludedSn, List.any_eq_true]
      exact ⟨e, he, h3⟩
  rcases hd with hn | hm
  · simp [add_entry, hn]
  · by_cases hn : nameDup s.entries su onames = true
    · simp [add_entry, hn]
    · rw [Bool.not_eq_true] at hn
      simp [add_entry, hn, hm]

/-- C3 witness: re-adding the stored student of `sessionWithEntry` with a
differently-cased name fails and the session is unchanged. -/
theorem addEntry_dup_rejected_witness :
    (add_entry "2026-01-01 09:00:00" sessionWithEntry "okafor " "JOHN PAUL" "99999999999").2.1
      = false
    ∧ (add_entry "2026-01-01 09:00:00" sessionWithEntry "okafor " "JOHN PAUL" "99999999999").1
      = sessionWithEntry := by
  have h := addEntry_dup_rejected "2026-01-01 09:00:00" sessionWithEntry
    "okafor " "JOHN PAUL" "99999999999" (by decide)
  exact ⟨h.1, h.2.1⟩

/-! ### C4 — start_session scenario -/

/-- C4: a freshly started session has `next_sn = 1`, no entries and a
4-character all-digit token (for any `randint` draw `rand ≤ 9999`), and a
subsequent `add_entry` always succeeds, appending the single normalized
entry with `sn = 1` (surname upper-cased, other names title-cased) and
leaving `next_sn = 2`. -/
theorem startSession_fresh (nowIso : String) (nowTs : ℚ) (rand : Nat)
    (hrand : rand ≤ 9999)
    (school dept level course rep : String) (s : Session)
    (hs : s = start_session nowIso nowTs rand school dept level course rep) :
    s.next_sn = 1 ∧ s.entries = []
    ∧ s.token.data.length = 4 ∧ (∀ c ∈ s.token.data, c.isDigit = true)
    ∧ ∀ t su onames ma,
        add_entry t s su onames ma
          = ({ s with
                entries := [{ sn := 1
                              surname := pyUpper (pyStrip su)
                              other_names := pyTitle (pyStrip onames)
                              matric := pyStrip ma
                              time := t }]
                next_sn := 2 }, true, "Entry recorded.") := by
  subst hs
  refine ⟨rfl, rfl, generate_token_length rand hrand, ?_, ?_⟩
  · intro c hc
    exact generate_token_digits rand c hc
  · intro t su onames ma
    simp [add_entry, start_session, nameDup, matricDup]

/-- C4 witness: the scenario of the spec with draw 7 (token `"0007"`). -/
theorem startSession_fresh_witness :
    (start_session "2026-01-01T08:00:00+01:00" 0 7
        "SICT" "Computer Science" "300" "CSC301" "rep1").next_sn = 1
    ∧ (start_session "2026-01-01T08:00:00+01:00" 0 7
        "SICT" "Computer Science" "300" "CSC301" "rep1").entries = [] := by
  have h := startSession_fresh "2026-01-01T08:00:00+01:00" 0 7 (by decide)
    "SICT" "Computer Science" "300" "CSC301" "rep1" _ rfl
  exact ⟨h.1, h.2.1⟩

/-! ### C5 — validate_matric -/

theorem pyIsDigit_iff (s : String) :
    pyIsDigit s = true ↔ s.data ≠ [] ∧ ∀ c ∈ s.data, c.isDigit = true := by
  simp [pyIsDigit, List.all_eq_true, List.isEmpty_iff]

/-- C5: `validate_matric` accepts exactly the inputs whose stripped form is
11 digit characters, and every rejection carries a non-empty message. -/
theorem validateMatric_eleven_digits (matric : String) :
    ((validate_matric matric).1 = true ↔
      ((pyStrip matric).data.length = 11
        ∧ ∀ c ∈ (pyStrip matric).data, c.isDigit = true))
    ∧ ((validate_matric matric).1 = false → (validate_matric matric).2 ≠ "") := by
  by_cases hd : pyIsDigit (pyStrip matric) = true
  · by_cases hl : (pyStrip matric).data.length = 11
    · have hdig : ∀ c ∈ (pyStrip matric).data, c.isDigit = true :=
        ((pyIsDigit_iff _).mp hd).2
      have h1 : validate_matric matric = (true, "") := by
        simp [validate_matric, hd, hl]
      rw [h1]
      exact ⟨⟨fun _ => ⟨hl, hdig⟩, fun _ => rfl⟩, fun hfalse => by simp at hfalse⟩
    · have hl' : ¬ (pyStrip matric).length = 11 := hl
      have h1 : validate_matric matric
          = (false, "Matric number must be exactly 11 digits (you entered "
                    ++ toString (pyStrip matric).data.length ++ ").") := by
        simp [validate_matric, hd, hl, hl']
      rw [h1]
      refine ⟨⟨fun h => by simp at h, fun hr => absurd hr.1 hl⟩, fun _ heq => ?_⟩
      have hlen := congrArg String.length heq
      rw [String.length_append, String.length_append] at hlen
      have hpos : 0 < ("Matric number must be exactly 11 digits (you entered " :
          String).length := by decide
      have h0 : ("" : String).length = 0 := rfl
      rw [h0] at hlen
      omega
  · have h1 : validate_matric matric
        = (false, "Matric number must contain digits only — no letters or spaces.") := by
      simp [validate_matric, hd]
    rw [h1]
    refine ⟨⟨fun h => by simp at h, fun hr => ?_⟩, fun _ => by decide⟩
    exfalso
    apply hd
    refine (pyIsDigit_iff _).mpr ⟨?_, hr.2⟩
    intro hemp
    rw [hemp] at hr
    simp at hr

/-- C5 witness: 10 digits rejected, 11 digits accepted, a letter rejected,
and the 10-digit rejection message is non-empty. -/
theorem validateMatric_eleven_digits_witness :
    (validate_matric "1234567890").1 = false
    ∧ (validate_matric "12345678901").1 = true
    ∧ (validate_matric "1234567890a").1 = false
    ∧ (validate_matric "1234567890").2 ≠ "" := by
  refine ⟨by decide, ?_, by decide,
    (validateMatric_eleven_digits "1234567890").2 (by decide)⟩
  exact (validateMatric_eleven_digits "12345678901").1.mpr (by decide)

/-! ### C6 — create_user global uniqueness -/

theorem lookupUser_append_self (users : UserDir) (u : String) (r : UserRec)
    (h : containsUser users u = false) :
    lookupUser (users ++ [(u, r)]) u = some r := by
  induction users with
  | nil =>
    simp [lookupUser, List.find?]
  | cons p rest ih =>
    have hcons : (decide (p.1 = u) || containsUser rest u) = false := h
    rw [Bool.or_eq_false_iff] at hcons
    obtain ⟨ha, hb⟩ := hcons
    rw [List.cons_append]
    unfold lookupUser
    rw [List.find?_cons_of_neg _ (by simpa using ha)]
    exact ih hb

/-- A sample advisor account in department Physics. -/
def advisorJdoe : UserRec :=
  { username := "jdoe"
    password_hash := hash_password "pw"
    role := "advisor"
    school := "SOPS"
    department := "Physics"
    level := none
    created_by := "ict"
    created_at := "2026-01-01 08:00:00" }

/-- C6: creating a user whose username is already anywhere in the directory
fails with the uniqueness message and leaves the directory unchanged,
whatever the roles and departments involved; when the username is absent
(and the store write succeeds) the new record is inserted under that
username. -/
theorem createUser_global_unique (users : UserDir)
    (username password role school dept : String) (level : Option String)
    (created_by now_str : String) (writeOk : Bool) :
    (containsUser users username = true →
       create_user users username password role school dept level created_by now_str writeOk
         = (users, false, "Username '" ++ username ++ "' already exists across FUTO."))
    ∧ (containsUser users username = false → writeOk = true →
       (create_user users username password role school dept level created_by now_str writeOk).2.1
           = true
       ∧ lookupUser
           (create_user users username password role school dept level created_by now_str writeOk).1
           username
         = some { username := username
                  password_hash := hash_password password
                  role := role
                  school := school
                  department := dept
                  level := level
                  created_by := created_by
                  created_at := now_str }) := by
  constructor
  · intro h
    simp [create_user, h]
  · intro h hw
    subst hw
    have hmain : create_user users username password role school dept level created_by now_str true
        = (users ++ [(username,
              { username := username
                password_hash := hash_password password
                role := role
                school := school
                department := dept
                level := level
                created_by := created_by
                created_at := now_str })], true, "Created.") := by
      simp [create_user, h]
    rw [hmain]
    exact ⟨rfl, lookupUser_append_self users username _ h⟩

/-- C6 witness: a rep `"jdoe"` in Computer Science cannot be created while
the advisor `"jdoe"` of Physics exists; on an empty directory the creation
succeeds. -/
theorem createUser_global_unique_witness :
    (create_user [("jdoe", advisorJdoe)] "jdoe" "pw2" "rep" "SICT" "Computer Science"
        (some "300") "adv1" "2026-01-02 09:00:00" true)
      = ([("jdoe", advisorJdoe)], false,
          "Username '" ++ "jdoe" ++ "' already exists across FUTO.")
    ∧ (create_user [] "jdoe" "pw" "advisor" "SOPS" "Physics" none "ict"
        "2026-01-01 08:00:00" true).2.1 = true := by
  constructor
  · exact (createUser_global_unique [("jdoe", advisorJdoe)] "jdoe" "pw2" "rep" "SICT"
      "Computer Science" (some "300") "adv1" "2026-01-02 09:00:00" true).1 (by decide)
  · exact ((createUser_global_unique [] "jdoe" "pw" "advisor" "SOPS" "Physics" none "ict"
      "2026-01-01 08:00:00" true).2 (by decide) rfl).1

/-! ### C7 — the sequence-number invariant -/

/-- The sequence-number invariant: entry `sn`s are pairwise distinct and all
strictly below `next_sn`. -/
abbrev SnInv (s : Session) : Prop :=
  (s.entries.map Entry.sn).Nodup ∧ ∀ e ∈ s.entries, e.sn < s.next_sn

theorem updateFirst_map_sn :
    ∀ (l : List Entry) (sn : Nat) (su onames ma : String) (l' : List Entry),
      updateFirst l sn su onames ma = some l' →
      l'.map Entry.sn = l.map Entry.sn := by
  intro l
  induction l with
  | nil =>
    intro sn su onames ma l' h
    simp [updateFirst] at h
  | cons e rest ih =>
    intro sn su onames ma l' h
    simp only [updateFirst] at h
    by_cases he : e.sn = sn
    · rw [if_pos he] at h
      injection h with h
      subst h
      simp
    · rw [if_neg he] at h
      obtain ⟨l'', h1, h2⟩ := Option.map_eq_some'.mp h
      subst h2
      simp [ih _ _ _ _ _ h1]

theorem deleteFirst_sublist :
    ∀ (l : List Entry) (sn : Nat) (l' : List Entry),
      deleteFirst l sn = some l' → l'.Sublist l := by
  intro l
  induction l with
  | nil =>
    intro sn l' h
    simp [deleteFirst] at h
  | cons e rest ih =>
    intro sn l' h
    simp only [deleteFirst] at h
    by_cases he : e.sn = sn
    · rw [if_pos he] at h
      injection h with h
      subst h
      exact List.sublist_cons_self e rest
    · rw [if_neg he] at h
      obtain ⟨l'', h1, h2⟩ := Option.map_eq_some'.mp h
      subst h2
      exact List.Sublist.cons₂ e (ih _ _ h1)

/-- C7: every entry operation preserves the sequence-number invariant;
`next_sn` never decreases; only a successful `add_entry` increments it
(assigning exactly the old `next_sn` to the appended entry, so a deleted
`sn`, being strictly below `next_sn`, is never reassigned); `edit_entry`
keeps the `sn` list and `next_sn` unchanged; `delete_entry` leaves `next_sn`
untouched. -/
theorem entryOps_preserve_sn_invariant (s : Session) (hinv : SnInv s) :
    (∀ t su onames ma,
       SnInv (add_entry t s su onames ma).1
       ∧ s.next_sn ≤ (add_entry t s su onames ma).1.next_sn
       ∧ ((add_entry t s su onames ma).2.1 = true →
            (add_entry t s su onames ma).1.next_sn = s.next_sn + 1
            ∧ (add_entry t s su onames ma).1.entries.map Entry.sn
                = s.entries.map Entry.sn ++ [s.next_sn])
       ∧ ((add_entry t s su onames ma).2.1 = false →
            (add_entry t s su onames ma).1 = s))
    ∧ (∀ sn su onames ma,
       SnInv (edit_entry s sn su onames ma).1
       ∧ (edit_entry s sn su onames ma).1.next_sn = s.next_sn
       ∧ (edit_entry s sn su onames ma).1.entries.map Entry.sn
           = s.entries.map Entry.sn)
    ∧ (∀ sn,
       SnInv (delete_entry s sn).1
       ∧ (delete_entry s sn).1.next_sn = s.next_sn) := by
  obtain ⟨hnd, hbd⟩ := hinv
  refine ⟨?_, ?_, ?_⟩
  · intro t su onames ma
    by_cases hn : nameDup s.entries su onames = true
    · have he : add_entry t s su onames ma
          = (s, false, "A student with this name is already in the attendance.") := by
        simp [add_entry, hn]
      rw [he]
      exact ⟨⟨hnd, hbd⟩, le_refl _, fun hfalse => by simp at hfalse, fun _ => rfl⟩
    · by_cases hm : matricDup s.entries ma = true
      · have he : add_entry t s su onames ma
            = (s, false, "This matric number is already in the attendance.") := by
          simp [add_entry, hn, hm]
        rw [he]
        exact ⟨⟨hnd, hbd⟩, le_refl _, fun hfalse => by simp at hfalse, fun _ => rfl⟩
      · have he : add_entry t s su onames ma
            = ({ s with
                  entries := s.entries ++
                    [{ sn := s.next_sn
                       surname := pyUpper (pyStrip su)
                       other_names := pyTitle (pyStrip onames)
                       matric := pyStrip ma
                       time := t }]
                  next_sn := s.next_sn + 1 }, true, "Entry recorded.") := by
          simp [add_entry, hn, hm]
        have hnotmem : s.next_sn ∉ s.entries.map Entry.sn := by
          intro hmem
          obtain ⟨e, he', hsn⟩ := List.mem_map.mp hmem
          exact absurd hsn (Nat.ne_of_lt (hbd e he'))
        rw [he]
        dsimp only
        refine ⟨⟨?_, ?_⟩, Nat.le_succ _, fun _ => ⟨rfl, ?_⟩, fun hfalse => by simp at hfalse⟩
        · rw [List.map_append]
          simp only [List.map_cons, List.map_nil]
          rw [List.nodup_append]
          refine ⟨hnd, List.nodup_singleton _, ?_⟩
          intro a ha hb
          simp only [List.mem_singleton] at hb
          subst hb
          exact hnotmem ha
        · intro e' he'
          rcases List.mem_append.mp he' with h1 | h2
          · exact Nat.lt_succ_of_lt (hbd e' h1)
          · simp at h2
            subst h2
            exact Nat.lt_succ_self _
        · rw [List.map_append]
          simp
  · intro sn su onames ma
    by_cases hn : nameDup s.entries su onames (some sn) = true
    · have he : edit_entry s sn su onames ma
          = (s, false, "Another entry already has this name.") := by
        simp [edit_entry, hn]
      rw [he]
      exact ⟨⟨hnd, hbd⟩, rfl, rfl⟩
    · by_cases hm : matricDup s.entries ma (some sn) = true
      · have he : edit_entry s sn su onames ma
            = (s, false, "Another entry already has this matric number.") := by
          simp [edit_entry, hn, hm]
        rw [he]
        exact ⟨⟨hnd, hbd⟩, rfl, rfl⟩
      · cases hu : updateFirst s.entries sn su onames ma with
        | none =>
          have he : edit_entry s sn su onames ma = (s, false, "Entry not found.") := by
            simp [edit_entry, hn, hm, hu]
          rw [he]
          exact ⟨⟨hnd, hbd⟩, rfl, rfl⟩
        | some l =>
          have he : edit_entry s sn su onames ma
              = ({ s with entries := l }, true, "Entry updated.") := by
            simp [edit_entry, hn, hm, hu]
          have hmap := updateFirst_map_sn _ _ _ _ _ _ hu
          rw [he]
          refine ⟨⟨hmap ▸ hnd, ?_⟩, rfl, hmap⟩
          intro e' he'
          have hmem : e'.sn ∈ l.map Entry.sn := List.mem_map_of_mem _ he'
          rw [hmap] at hmem
          obtain ⟨e, he2, hsn⟩ := List.mem_map.mp hmem
          exact hsn ▸ hbd e he2
  · intro sn
    cases hd : deleteFirst s.entries sn with
    | none =>
      have he : delete_entry s sn = (s, false, "Entry not found.") := by
        simp [delete_entry, hd]
      rw [he]
      exact ⟨⟨hnd, hbd⟩, rfl⟩
    | some l =>
      have he : delete_entry s sn = ({ s with entries := l }, true, "Entry removed.") := by
        simp [delete_entry, hd]
      have hsub := deleteFirst_sublist _ _ _ hd
      rw [he]
      refine ⟨⟨?_, ?_⟩, rfl⟩
      · exact List.Nodup.sublist (hsub.map Entry.sn) hnd
      · intro e' he'
        exact hbd e' (hsub.subset he')

/-- C7 witness: deleting the single entry of `sessionWithEntry` preserves
the invariant and leaves `next_sn` untouched. -/
theorem entryOps_preserve_sn_invariant_witness :
    SnInv (delete_entry sessionWithEntry 1).1
    ∧ (delete_entry sessionWithEntry 1).1.next_sn = sessionWithEntry.next_sn :=
  (entryOps_preserve_sn_invariant sessionWithEntry (by decide)).2.2 1

/-! ### C8 — end-session export failure is non-destructive -/

/-- C8: the end-session handler deletes the live session document only after
the export push succeeds; on push failure `delete_session` is not invoked
and the document survives with all its entries intact. -/
theorem endSession_nondestructive (s : Session) (pushResult : Bool) :
    (pushResult = false →
       (end_session_handler (some s) pushResult).store = some s
       ∧ (end_session_handler (some s) pushResult).deleteInvoked = false)
    ∧ ((end_session_handler (some s) pushResult).store = none → pushResult = true)
    ∧ ((end_session_handler (some s) pushResult).deleteInvoked = true →
        pushResult = true) := by
  cases pushResult <;> simp [end_session_handler]

/-- C8 witness: a failed push preserves `sessionWithEntry` untouched. -/
theorem endSession_nondestructive_witness :
    (end_session_handler (some sessionWithEntry) false).store = some sessionWithEntry
    ∧ (end_session_handler (some sessionWithEntry) false).deleteInvoked = false :=
  (endSession_nondestructive sessionWithEntry false).1 rfl

/-! ### C9 — device anti-cheat exclusivity -/

/-- C9 counterexample: a device id bound to the empty string is "bound to a
different matric" for any real matric, yet the call succeeds and rebinds,
because Python's `if existing and existing != matric.strip()` treats the
empty stored string as falsy. -/
theorem checkDevice_exclusive_counterexample :
    lookupDevice [("dev-abc", "")] "dev-abc" = some ""
    ∧ ("" : String) ≠ pyStrip "20207654321"
    ∧ (check_and_register_device (some [("dev-abc", "")]) true
        "dev-abc" "20207654321").ok = true := by
  refine ⟨rfl, by decide, by decide⟩

/-- C9 (amended: a binding to the empty string is overwritten rather than
defended): for a non-empty device id, an unbound id binds to the stripped
matric; an id bound to a different *non-empty* matric is rejected with the
device-reuse message and the stored map is not touched; an id bound to the
same stripped matric re-confirms successfully. -/
theorem checkDevice_exclusive (store : Option DeviceMap) (writeOk : Bool)
    (device_id matric : String) (hdev : device_id ≠ "") :
    (lookupDevice (store.getD []) device_id = none →
       (check_and_register_device store writeOk device_id matric).ok = true
       ∧ (writeOk = true →
            (check_and_register_device store writeOk device_id matric).store
              = some (setDevice (store.getD []) device_id (pyStrip matric))))
    ∧ (∀ v, lookupDevice (store.getD []) device_id = some v →
        (v ≠ "" → v ≠ pyStrip matric →
           (check_and_register_device store writeOk device_id matric).ok = false
           ∧ (check_and_register_device store writeOk device_id matric).msg
               = "This device has already been used to sign attendance for this class."
           ∧ (check_and_register_device store writeOk device_id matric).store = store
           ∧ (check_and_register_device store writeOk device_id matric).wroteStore
               = false)
        ∧ (v = pyStrip matric →
           (check_and_register_device store writeOk device_id matric).ok = true)) := by
  constructor
  · intro hnone
    have he : check_and_register_device store writeOk device_id matric
        = { ok := true, msg := ""
            store := if writeOk then
                some (setDevice (store.getD []) device_id (pyStrip matric))
              else store
            readStore := true, wroteStore := true } := by
      simp [check_and_register_device, hdev, hnone]
    rw [he]
    exact ⟨rfl, fun hw => by rw [hw]; simp⟩
  · intro v hv
    constructor
    · intro hne hdiff
      have he : check_and_register_device store writeOk device_id matric
          = { ok := false
              msg := "This device has already been used to sign attendance for this class."
              store := store, readStore := true, wroteStore := false } := by
        simp [check_and_register_device, hdev, hv, hne, hdiff]
      rw [he]
      exact ⟨rfl, rfl, rfl, rfl⟩
    · intro heqv
      have he : check_and_register_device store writeOk device_id matric
          = { ok := true, msg := ""
              store := if writeOk then
                  some (setDevice (store.getD []) device_id (pyStrip matric))
                else store
              readStore := true, wroteStore := true } := by
        simp [check_and_register_device, hdev, hv, heqv]
      rw [he]

/-- C9 witness for the amended claim: `"dev-abc"` first binds to
`"20201234567"` (the written-back map holds the binding), then the same id
with `"20207654321"` is rejected. -/
theorem checkDevice_exclusive_witness :
    (check_and_register_device none true "dev-abc" "20201234567").store
        = some [("dev-abc", "20201234567")]
    ∧ (check_and_register_device (some [("dev-abc", "20201234567")]) true
        "dev-abc" "20207654321").ok = false := by
  constructor
  · have h := ((checkDevice_exclusive none true "dev-abc" "20201234567"
      (by decide)).1 (by decide)).2 rfl
    rw [h]
    decide
  · exact (((checkDevice_exclusive (some [("dev-abc", "20201234567")]) true
      "dev-abc" "20207654321" (by decide)).2 "20201234567" (by decide)).1
      (by decide) (by decide)).1

/-! ### C10 — anti-cheat bypass on falsy device id; unpersisted success -/

/-- C10: an empty device id short-circuits `check_and_register_device` to
success with no read or write of the device map; and in the binding path a
failed store write still yields a success result while the stored map is
left unchanged, so success does not imply the binding was persisted. -/
theorem checkDevice_bypass_and_unpersisted (store : Option DeviceMap)
    (writeOk : Bool) (matric : String) :
    (check_and_register_device store writeOk "" matric
       = { ok := true, msg := "", store := store
           readStore := false, wroteStore := false })
    ∧ (∀ device_id, device_id ≠ "" →
        lookupDevice (store.getD []) device_id = none →
          (check_and_register_device store false device_id matric).ok = true
          ∧ (check_and_register_device store false device_id matric).store = store
          ∧ lookupDevice
              ((check_and_register_device store false device_id matric).store.getD [])
              device_id = none) := by
  constructor
  · simp [check_and_register_device]
  · intro device_id hdev hnone
    have he : check_and_register_device store false device_id matric
        = { ok := true, msg := "", store := store
            readStore := true, wroteStore := true } := by
      simp [check_and_register_device, hdev, hnone]
    rw [he]
    exact ⟨rfl, rfl, hnone⟩

/-- C10 witness: with a failing store write, binding `"dev-abc"` reports
success yet the stored map still lacks the binding; the empty device id
bypasses the check entirely. -/
theorem checkDevice_bypass_and_unpersisted_witness :
    (check_and_register_device (some [("other", "11111111111")]) true
        "" "20201234567").ok = true
    ∧ (check_and_register_device (some [("other", "11111111111")]) false
        "dev-abc" "20201234567").ok = true
    ∧ lookupDevice
        ((check_and_register_device (some [("other", "11111111111")]) false
            "dev-abc" "20201234567").store.getD []) "dev-abc" = none := by
  have h1 := (checkDevice_bypass_and_unpersisted (some [("other", "11111111111")])
    true "20201234567").1
  have h2 := (checkDevice_bypass_and_unpersisted (some [("other", "11111111111")])
    false "20201234567").2 "dev-abc" (by decide) (by decide)
  exact ⟨by rw [h1], h2.1, h2.2.2⟩

end ULAS
